import Mathlib

set_option maxHeartbeats 1000000

/-!
Shallow embedding of the GTO Wizard Browser Controller (src/main.py).

The repository is a FastAPI application holding a process-wide registry of
browser sessions and a `get-range` endpoint that clicks through a fixed
sequence of filter controls on an external page.  All browser interaction is
reduced to an environment (`Env`, `CloseEnv`) recording which DOM click
attempts succeed; everything else (validation, ordering, message building,
registry updates) is translated directly from the Python source.
-/

namespace GTOWizard

/-- The ten optional filter fields of a `get-range` request, in the order the
request model declares them (src/main.py lines 30-39). -/
inductive FilterField
  | solutions
  | cash_type
  | cash_players
  | available_spots
  | cash_stacks
  | bet_sizes
  | rake
  | cash_open_size
  | cash_3bet_size
  | hero
deriving DecidableEq, Repr

/-- `solutions_map` (src/main.py lines 154-159). -/
def solutions_map : List (String × String) :=
  [("Cash", "chrow_cash"), ("MTT", "chrow_mtt"),
   ("Spin & Go", "chrow_spins"), ("Hu SnG", "chrow_husng")]

/-- `cash_type_map` (src/main.py lines 217-225). -/
def cash_type_map : List (String × String) :=
  [("Classic", "chrow_classic"), ("Short", "chrow_shortstack"),
   ("Ante", "chrow_ante"), ("Straddle", "chrow_straddle"),
   ("Straddle+Ante", "chrow_ante_straddle"),
   ("DoubleStraddle", "chrow_double_straddle"),
   ("MississippiStraddle", "chrow_mississippi_straddle")]

/-- `cash_players_map` (src/main.py lines 275-280). -/
def cash_players_map : List (String × String) :=
  [("Heads-up", "chrow_hu"), ("6max", "chrow_6max"),
   ("8max", "chrow_8max"), ("9max", "chrow_9max")]

/-- `available_spots_map` (src/main.py lines 330-333): value to
(data-tst attribute, display text). -/
def available_spots_map : List (String × String × String) :=
  [("postflop_included", ("chrow_all_spots", "Postflop included")),
   ("preflop_only", ("chrow_preflop_only", "Preflop only"))]

/-- `cash_stacks_map` (src/main.py lines 384-393). -/
def cash_stacks_map : List (String × String) :=
  [("Any", "chrow_any"), ("200", "chrow_200"), ("150", "chrow_150"),
   ("100", "chrow_100"), ("75", "chrow_75"), ("50", "chrow_50"),
   ("40", "chrow_40"), ("20", "chrow_20")]

/-- `bet_sizes_map` (src/main.py lines 443-448). -/
def bet_sizes_map : List (String × String) :=
  [("Any", "chrow_any"), ("Simple", "chrow_simple"),
   ("Simplified", "chrow_simplified"), ("General", "chrow_general")]

/-- `rake_map` (src/main.py lines 498-504). -/
def rake_map : List (String × String) :=
  [("Any", "chrow_any"), ("NL50", "chrow_NL50"), ("NL500", "chrow_NL500"),
   ("NL50 GG", "chrow_GG NL50"), ("NL1k GG", "chrow_GG NL1k")]

/-- `cash_open_size_map` (src/main.py lines 555-559). -/
def cash_open_size_map : List (String × String) :=
  [("Any", "chrow_any"), ("GTO", "chrow_gto"), ("2.5x", "chrow_25x")]

/-- `cash_3bet_size_map` (src/main.py lines 623-627). -/
def cash_3bet_size_map : List (String × String) :=
  [("Any", "chrow_any"), ("GTO", "chrow_gto"), ("Smaller", "chrow_smaller")]

/-- `hero_map` (src/main.py lines 736-740): the value `"Any"` is deliberately
mapped to `None` in the source ("Any" has no data-tst attribute). -/
def hero_map : List (String × Option String) :=
  [("Any", none), ("OOP", some "chrow_oop"), ("IP", some "chrow_ip")]

/-- The closed enum of each filter: exactly the keys of that filter's map,
in source order.  The source checks membership with `value not in map`. -/
def enumOf : FilterField → List String
  | .solutions => solutions_map.map Prod.fst
  | .cash_type => cash_type_map.map Prod.fst
  | .cash_players => cash_players_map.map Prod.fst
  | .available_spots => available_spots_map.map Prod.fst
  | .cash_stacks => cash_stacks_map.map Prod.fst
  | .bet_sizes => bet_sizes_map.map Prod.fst
  | .rake => rake_map.map Prod.fst
  | .cash_open_size => cash_open_size_map.map Prod.fst
  | .cash_3bet_size => cash_3bet_size_map.map Prod.fst
  | .hero => hero_map.map Prod.fst

/-- Membership of a raw request value in a filter's closed enum. -/
def inEnum (f : FilterField) (v : String) : Bool :=
  (enumOf f).contains v

/-- The value-to-external-identifier lookup of each filter: `map[value]`
in the source, projected onto the data-tst attribute.  For `hero`,
`hero_map["Any"]` is `None`, so the lookup yields no identifier. -/
def identifierOf : FilterField → String → Option String
  | .solutions, v => List.lookup v solutions_map
  | .cash_type, v => List.lookup v cash_type_map
  | .cash_players, v => List.lookup v cash_players_map
  | .available_spots, v => (List.lookup v available_spots_map).map Prod.fst
  | .cash_stacks, v => List.lookup v cash_stacks_map
  | .bet_sizes, v => List.lookup v bet_sizes_map
  | .rake, v => List.lookup v rake_map
  | .cash_open_size, v => List.lookup v cash_open_size_map
  | .cash_3bet_size, v => List.lookup v cash_3bet_size_map
  | .hero, v =>
    match List.lookup v hero_map with
    | some o => o
    | none => none

/-- The filter name used in error and log messages (the Python attribute
name, as interpolated into the f-strings of src/main.py). -/
def filterName : FilterField → String
  | .solutions => "solutions"
  | .cash_type => "cash_type"
  | .cash_players => "cash_players"
  | .available_spots => "available_spots"
  | .cash_stacks => "cash_stacks"
  | .bet_sizes => "bet_sizes"
  | .rake => "rake"
  | .cash_open_size => "cash_open_size"
  | .cash_3bet_size => "cash_3bet_size"
  | .hero => "hero"

/-- Python `sep.join(parts)`. -/
def pyJoin (sep : String) : List String → String
  | [] => ""
  | [x] => x
  | x :: y :: xs => x ++ sep ++ pyJoin sep (y :: xs)

/-- The `"Must be one of: ..."` tail of every invalid-value message lists the
map keys separated by `", "`, exactly as written literally in the source. -/
def allowedValues (f : FilterField) : String :=
  pyJoin ", " (enumOf f)

/-- Python single-character `str.replace`: every occurrence of `c` is
replaced by the string `r`.  All replacements in the source have a
single-character pattern. -/
def replaceChar (c : Char) (r : String) (s : String) : String :=
  s.data.foldl (fun acc ch => if ch == c then acc ++ r else acc.push ch) ""

/-- Python `str.lower()` on the ASCII enum values, written directly on the
character list so that it reduces in the kernel. -/
def pyLower (s : String) : String :=
  ⟨s.data.map Char.toLower⟩

/-- The normalized per-filter action token (src/main.py lines 824-861),
filter by filter as the source writes it. -/
def tokenOf : FilterField → String → String
  | .solutions, v => "clicked_" ++ replaceChar '&' "and" (replaceChar ' ' "_" (pyLower v))
  | .cash_type, v =>
    "clicked_" ++ replaceChar '&' "and" (replaceChar '+' "plus" (replaceChar ' ' "_" (pyLower v)))
  | .cash_players, v => "clicked_" ++ replaceChar '-' "_" (replaceChar ' ' "_" (pyLower v))
  | .available_spots, v => "clicked_" ++ replaceChar '-' "_" (replaceChar ' ' "_" (pyLower v))
  | .cash_stacks, v => "clicked_" ++ pyLower v
  | .bet_sizes, v => "clicked_" ++ pyLower v
  | .rake, v => "clicked_" ++ replaceChar 'k' "k" (replaceChar ' ' "_" (pyLower v))
  | .cash_open_size, v => "clicked_" ++ replaceChar '.' "_" (pyLower v)
  | .cash_3bet_size, v => "clicked_" ++ pyLower v
  | .hero, v => "clicked_" ++ pyLower v

/-- The request body of `POST /get-range` (src/main.py lines 27-39). -/
structure GetRangeRequest where
  action : String := "get-range"
  session_id : String
  solutions : Option String := none
  cash_type : Option String := none
  cash_players : Option String := none
  available_spots : Option String := none
  cash_stacks : Option String := none
  bet_sizes : Option String := none
  rake : Option String := none
  cash_open_size : Option String := none
  cash_3bet_size : Option String := none
  hero : Option String := none
deriving DecidableEq

/-- The response body of `POST /get-range` (src/main.py lines 41-45). -/
structure GetRangeResponse where
  session_id : String
  status : String
  message : String
  action_performed : String
deriving DecidableEq

/-- An `HTTPException`: status code plus detail string. -/
structure Err where
  status_code : Nat
  detail : String
deriving DecidableEq

/-- The raw field of the request corresponding to each filter. -/
def fieldOf (req : GetRangeRequest) : FilterField → Option String
  | .solutions => req.solutions
  | .cash_type => req.cash_type
  | .cash_players => req.cash_players
  | .available_spots => req.available_spots
  | .cash_stacks => req.cash_stacks
  | .bet_sizes => req.bet_sizes
  | .rake => req.rake
  | .cash_open_size => req.cash_open_size
  | .cash_3bet_size => req.cash_3bet_size
  | .hero => req.hero

/-- Python's `if request.f and request.f.strip():` guard: the field is
treated as supplied exactly when it is present and contains a
non-whitespace character; the raw (unstripped) value is used afterwards. -/
def pySuppliedVal (o : Option String) : Option String :=
  match o with
  | none => none
  | some s => if s.data.any (fun c => !c.isWhitespace) then some s else none

/-- The fixed order in which `get_range_action` walks the filters
(src/main.py lines 150-818). -/
def filterOrder : List FilterField :=
  [.solutions, .cash_type, .cash_players, .available_spots, .cash_stacks,
   .bet_sizes, .rake, .cash_open_size, .cash_3bet_size, .hero]

/-- Whether a filter block raises when no selector strategy clicked.
Every filter raises `Could not click ...` on failure except `hero`:
in the hero block the `if not hero_clicked: raise` statement is nested
inside the `"Any"` branch only (src/main.py lines 817-818), so a failed
click for `"OOP"` or `"IP"` falls through silently. -/
def raisesOnClickFail (f : FilterField) (v : String) : Bool :=
  match f with
  | .hero => v == "Any"
  | _ => true

/-- The `Invalid {name} value: {v}. Must be one of: ...` exception text. -/
def invalidMsg (f : FilterField) (v : String) : String :=
  "Invalid " ++ filterName f ++ " value: " ++ v ++ ". Must be one of: " ++ allowedValues f

/-- The `Could not click on {name} button for {v}` exception text. -/
def clickFailMsg (f : FilterField) (v : String) : String :=
  "Could not click on " ++ filterName f ++ " button for " ++ v

/-- Abstraction of the live page: for each filter, whether any selector in
its ordered strategy list locates a visible element within its timeout
(the per-filter click loops), and whether any range-selector (panel-open)
strategy succeeds (src/main.py lines 124-147). -/
structure Env where
  clickSucceeds : FilterField → Bool
  panelSucceeds : Bool := true

/-- One pass of the filter sequence over the given filter list.  Returns the
list of filters whose click loop was entered, in order, together with the
exception text if the pass raised.  Mirrors the per-filter blocks of
`get_range_action`: skip when absent/blank; raise on out-of-enum value;
click loop; on loop failure raise exactly when `raisesOnClickFail`. -/
def processFilters (env : Env) (req : GetRangeRequest) : List FilterField → List FilterField × Option String
  | [] => ([], none)
  | f :: rest =>
    match pySuppliedVal (fieldOf req f) with
    | none => processFilters env req rest
    | some v =>
      if inEnum f v then
        if env.clickSucceeds f then
          ((f :: (processFilters env req rest).1), (processFilters env req rest).2)
        else if raisesOnClickFail f v then
          ([f], some (clickFailMsg f v))
        else
          ((f :: (processFilters env req rest).1), (processFilters env req rest).2)
      else ([], some (invalidMsg f v))

/-- The `actions_performed` list built after the filter loop
(src/main.py lines 821-862): one normalized token per supplied filter,
appended in the same fixed order. -/
def actionsPerformed (req : GetRangeRequest) : List String :=
  (match pySuppliedVal req.solutions with
   | some v => [tokenOf .solutions v]
   | none => []) ++
  (match pySuppliedVal req.cash_type with
   | some v => [tokenOf .cash_type v]
   | none => []) ++
  (match pySuppliedVal req.cash_players with
   | some v => [tokenOf .cash_players v]
   | none => []) ++
  (match pySuppliedVal req.available_spots with
   | some v => [tokenOf .available_spots v]
   | none => []) ++
  (match pySuppliedVal req.cash_stacks with
   | some v => [tokenOf .cash_stacks v]
   | none => []) ++
  (match pySuppliedVal req.bet_sizes with
   | some v => [tokenOf .bet_sizes v]
   | none => []) ++
  (match pySuppliedVal req.rake with
   | some v => [tokenOf .rake v]
   | none => []) ++
  (match pySuppliedVal req.cash_open_size with
   | some v => [tokenOf .cash_open_size v]
   | none => []) ++
  (match pySuppliedVal req.cash_3bet_size with
   | some v => [tokenOf .cash_3bet_size v]
   | none => []) ++
  (match pySuppliedVal req.hero with
   | some v => [tokenOf .hero v]
   | none => [])

/-- The per-filter tail of `message_parts` (src/main.py lines 824-862):
`"{value} {filter} button"` for every supplied filter, in order. -/
def messageRest (req : GetRangeRequest) : List String :=
  (match pySuppliedVal req.solutions with
   | some v => [v ++ " solutions button"]
   | none => []) ++
  (match pySuppliedVal req.cash_type with
   | some v => [v ++ " cash_type button"]
   | none => []) ++
  (match pySuppliedVal req.cash_players with
   | some v => [v ++ " cash_players button"]
   | none => []) ++
  (match pySuppliedVal req.available_spots with
   | some v => [v ++ " available_spots button"]
   | none => []) ++
  (match pySuppliedVal req.cash_stacks with
   | some v => [v ++ " cash_stacks button"]
   | none => []) ++
  (match pySuppliedVal req.bet_sizes with
   | some v => [v ++ " bet_sizes button"]
   | none => []) ++
  (match pySuppliedVal req.rake with
   | some v => [v ++ " rake button"]
   | none => []) ++
  (match pySuppliedVal req.cash_open_size with
   | some v => [v ++ " cash_open_size button"]
   | none => []) ++
  (match pySuppliedVal req.cash_3bet_size with
   | some v => [v ++ " cash_3bet_size button"]
   | none => []) ++
  (match pySuppliedVal req.hero with
   | some v => [v ++ " hero button"]
   | none => [])

/-- The `message_parts` list (src/main.py lines 821-862): the fixed panel
prefix first, then one part per supplied filter. -/
def messageParts (req : GetRangeRequest) : List String :=
  "Successfully clicked on range selector div" :: messageRest req

/-- The success response (src/main.py lines 864-874). -/
def mkResponse (req : GetRangeRequest) : GetRangeResponse :=
  { session_id := req.session_id
    status := "success"
    message := pyJoin " and " (messageParts req)
    action_performed :=
      if actionsPerformed req = [] then "clicked_range_selector"
      else pyJoin "_and_" (actionsPerformed req) }

/-- One registry entry of `active_sessions` (src/main.py line 17 and the
dict updates at lines 70-74 and 905-911): status string, URL, creation
time, presence flags for the four owned handles, retained error text. -/
structure Session where
  status : String
  url : String
  created_at : Nat := 0
  hasPage : Bool := false
  hasContext : Bool := false
  hasBrowser : Bool := false
  hasPlaywright : Bool := false
  error : Option String := none
deriving DecidableEq

/-- The process-wide session registry, keyed by session id. -/
abbrev Reg := String → Option Session

/-- The empty registry. -/
def emptyReg : Reg := fun _ => none

/-- The `POST /get-range` handler (src/main.py lines 88-878): action check
(400), registry lookup (404), active check (400), then the filter pass;
any exception from the pass surfaces as a 500 whose detail prefixes the
exception text; otherwise the success response built from the request. -/
def get_range_action (reg : Reg) (env : Env) (req : GetRangeRequest) :
    Except Err GetRangeResponse :=
  if req.action ≠ "get-range" then
    .error ⟨400, "Action must be \x27get-range\x27"⟩
  else
    match reg req.session_id with
    | none => .error ⟨404, "Session not found"⟩
    | some s =>
      if s.status ≠ "active" then .error ⟨400, "Session is not active"⟩
      else
        match (processFilters env req filterOrder).2 with
        | some msg => .error ⟨500, "Failed to perform get-range action: " ++ msg⟩
        | none => .ok (mkResponse req)

/-- The hardcoded deep link opened on creation (src/main.py line 64). -/
def gto_wizard_url : String :=
  "https://app.gtowizard.com/practice/range-builder?custree_id=929b2d3e-9830-448c-a6a4-e9218cba6504&cussol_id=cf42a022-e53a-438f-9997-02e36495104d&solution_type=gwiz&gmfs_solution_tab=ai_sols&gametype=MTTGeneral&depth=12.125&gmff_depth=100&gmfft_sort_key=0&gmfft_sort_order=desc&board=Js8d2d&history_spot=0"

/-- The fresh registry entry written by `POST /create`
(src/main.py lines 70-74). -/
def create_session_entry (url : String) (now : Nat) : Session :=
  { status := "launching", url := url, created_at := now }

/-- The registry update performed by `POST /create` for a fresh id. -/
def create_register (reg : Reg) (id : String) (now : Nat) : Reg :=
  fun k => if k = id then some (create_session_entry gto_wizard_url now) else reg k

/-- What `launch_browser_session` does to its session entry once the
background acquisition finishes (src/main.py lines 880-921): on success
the entry becomes `active` and gains all four handles; on any error the
status becomes `error` and the message is retained. -/
def launch_finish (outcome : Except String Unit) (s : Session) : Session :=
  match outcome with
  | .ok _ =>
    { s with status := "active", hasPage := true, hasContext := true,
             hasBrowser := true, hasPlaywright := true }
  | .error e => { s with status := "error", error := some e }

/-- `launch_finish` lifted to the registry (the background task writes
`active_sessions[session_id]`). -/
def launch_finish_reg (reg : Reg) (id : String) (outcome : Except String Unit) : Reg :=
  fun k => if k = id then (reg k).map (launch_finish outcome) else reg k

/-- The four owned resources released by `DELETE /sessions/{id}`, in
source order (src/main.py lines 968-975). -/
inductive Resource
  | page
  | context
  | browser
  | playwright
deriving DecidableEq, Repr

/-- Abstraction of the release calls: for each resource, `none` means the
close/stop call returns normally, `some e` means it raises with text `e`. -/
structure CloseEnv where
  pageFail : Option String := none
  contextFail : Option String := none
  browserFail : Option String := none
  playwrightFail : Option String := none

/-- The release attempts `close_session` will make, in source order, for the
handles present on the entry (the `if "page" in session_info` guards). -/
def releaseSteps (s : Session) (cenv : CloseEnv) : List (Resource × Option String) :=
  (if s.hasPage then [(Resource.page, cenv.pageFail)] else []) ++
  (if s.hasContext then [(Resource.context, cenv.contextFail)] else []) ++
  (if s.hasBrowser then [(Resource.browser, cenv.browserFail)] else []) ++
  (if s.hasPlaywright then [(Resource.playwright, cenv.playwrightFail)] else [])

/-- Run the release attempts in order: the first raising call aborts the
rest (the source wraps all releases and the registry delete in a single
`try`).  Returns the attempted resources in order and the exception, if any. -/
def runReleases : List (Resource × Option String) → List Resource × Option String
  | [] => ([], none)
  | (r, none) :: rest =>
    let t := runReleases rest
    (r :: t.1, t.2)
  | (r, some e) :: _ => ([r], some e)

/-- The `DELETE /sessions/{id}` handler (src/main.py lines 955-985):
404 for an unknown id; for an active session, release page, context,
browser, playwright in order; any raising release aborts into a 500 and
skips the registry delete; otherwise the entry is removed.  Returns the
attempted releases, the HTTP result, and the updated registry. -/
def close_session (reg : Reg) (cenv : CloseEnv) (id : String) :
    List Resource × Except Err String × Reg :=
  match reg id with
  | none => ([], .error ⟨404, "Session not found"⟩, reg)
  | some s =>
    match runReleases (if s.status = "active" then releaseSteps s cenv else []) with
    | (t, some e) => (t, .error ⟨500, "Failed to close session: " ++ e⟩, reg)
    | (t, none) =>
      (t, .ok ("Session " ++ id ++ " closed successfully"),
       fun k => if k = id then none else reg k)

/-- Specification-side per-filter token contribution, used to restate the
composite action tag as a map over the declared filter order. -/
def contribToken (req : GetRangeRequest) (f : FilterField) : List String :=
  match pySuppliedVal (fieldOf req f) with
  | some v => [tokenOf f v]
  | none => []

/-- Concatenation of a list-valued function over a list. -/
def joinMap (g : α → List β) : List α → List β
  | [] => []
  | a :: l => g a ++ joinMap g l

/-- Specification-side reading of the composite action tag: one token per
supplied filter, in the fixed filter order. -/
def tokensSpec (req : GetRangeRequest) : List String :=
  joinMap (contribToken req) filterOrder

/-- The filters of `l` that the request supplies with a non-blank value. -/
def suppliedFilters (req : GetRangeRequest) (l : List FilterField) : List FilterField :=
  l.filter (fun f => (pySuppliedVal (fieldOf req f)).isSome)

/-- A filter passes in an environment when, if supplied, its value is in
the enum and its click loop succeeds. -/
def passes (env : Env) (req : GetRangeRequest) (f : FilterField) : Prop :=
  ∀ v, pySuppliedVal (fieldOf req f) = some v →
    inEnum f v = true ∧ env.clickSucceeds f = true

/-- The handles present on a session entry, in release order. -/
def presentHandles (s : Session) : List Resource :=
  (if s.hasPage then [Resource.page] else []) ++
  (if s.hasContext then [Resource.context] else []) ++
  (if s.hasBrowser then [Resource.browser] else []) ++
  (if s.hasPlaywright then [Resource.playwright] else [])

/-- Fixture: a fully active session entry owning all four handles. -/
def sessionActive : Session :=
  { status := "active", url := gto_wizard_url, created_at := 0,
    hasPage := true, hasContext := true, hasBrowser := true, hasPlaywright := true }

/-- Fixture: a registry holding `sessionActive` under id `"sid"`. -/
def regOne : Reg := fun k => if k = "sid" then some sessionActive else none

/-- Fixture: a page on which every selector strategy succeeds. -/
def envAll : Env := { clickSucceeds := fun _ => true }

/-- Fixture: a page on which every strategy of the solutions filter times
out while every other filter's strategies succeed. -/
def envNoSolutions : Env := { clickSucceeds := fun f => !(f == .solutions) }

/-- Fixture: a page on which every strategy of the hero filter times out
while every other filter's strategies succeed. -/
def envNoHero : Env := { clickSucceeds := fun f => !(f == .hero) }

/-- Fixture: a request supplying solutions and cash_type. -/
def reqC2 : GetRangeRequest :=
  { session_id := "sid", solutions := some "Cash", cash_type := some "Classic" }

/-- Fixture: a request whose cash_type value is outside the enum, behind a
valid solutions value. -/
def reqC5 : GetRangeRequest :=
  { session_id := "sid", solutions := some "Cash", cash_type := some "Nonexistent" }

/-- Fixture: the end-to-end scenario request of the spec. -/
def reqScenario : GetRangeRequest :=
  { session_id := "sid", solutions := some "Cash", cash_players := some "6max" }

/-- Fixture: the response of the end-to-end scenario. -/
def respScenario : GetRangeResponse := mkResponse reqScenario

/-- Fixture: a get-range payload whose action field is wrong and whose
session id is unregistered. -/
def reqBadAction : GetRangeRequest := { action := "create", session_id := "missing" }

/-- Fixture: an environment in which releasing the page handle raises. -/
def cenvPageBoom : CloseEnv := { pageFail := some "boom" }

/-- The first element of a nonempty join is a prefix of the join. -/
theorem pyJoin_cons_ex (sep x : String) (xs : List String) :
    ∃ t, pyJoin sep (x :: xs) = x ++ t := by
  cases xs with
  | nil => exact ⟨"", (String.append_empty x).symm⟩
  | cons y ys => exact ⟨sep ++ pyJoin sep (y :: ys), by rw [pyJoin, String.append_assoc]⟩

/-- The filters whose click loop a pass enters form a sublist of the list
walked, so interactions can never happen out of the declared order. -/
theorem processFilters_trace_sublist (env : Env) (req : GetRangeRequest) :
    ∀ l : List FilterField, List.Sublist (processFilters env req l).1 l := by
  intro l
  induction l with
  | nil => exact List.Sublist.slnil
  | cons f rest ih =>
    rw [processFilters]
    cases h : pySuppliedVal (fieldOf req f) with
    | none => exact ih.cons f
    | some v =>
      by_cases he : inEnum f v
      · by_cases hc : env.clickSucceeds f
        · simpa [he, hc] using ih.cons₂ f
        · by_cases hr : raisesOnClickFail f v
          · simp [he, hc, hr]
          · simpa [he, hc, hr] using ih.cons₂ f
      · simp [he]

/-- A pass over filters that all pass attempts exactly the supplied ones
and raises nothing. -/
theorem processFilters_all_pass (env : Env) (req : GetRangeRequest) :
    ∀ l : List FilterField, (∀ f ∈ l, passes env req f) →
      processFilters env req l = (suppliedFilters req l, none) := by
  intro l
  induction l with
  | nil => intro _; simp [processFilters, suppliedFilters]
  | cons f rest ih =>
    intro h
    have hrest := ih (fun g hg => h g (List.mem_cons_of_mem f hg))
    rw [processFilters]
    cases hs : pySuppliedVal (fieldOf req f) with
    | none => simp [hrest, suppliedFilters, List.filter_cons, hs]
    | some v =>
      obtain ⟨he, hc⟩ := h f (List.mem_cons_self f rest) v hs
      simp [he, hc, hrest, suppliedFilters, List.filter_cons, hs]

/-- Splitting a pass at a point all of whose predecessors pass. -/
theorem processFilters_append_pass (env : Env) (req : GetRangeRequest) :
    ∀ l1 l2 : List FilterField, (∀ f ∈ l1, passes env req f) →
      processFilters env req (l1 ++ l2) =
        (suppliedFilters req l1 ++ (processFilters env req l2).1,
         (processFilters env req l2).2) := by
  intro l1
  induction l1 with
  | nil => intro l2 _; simp [suppliedFilters]
  | cons f rest ih =>
    intro l2 h
    have hrest := ih l2 (fun g hg => h g (List.mem_cons_of_mem f hg))
    rw [List.cons_append, processFilters]
    cases hs : pySuppliedVal (fieldOf req f) with
    | none => simp [hrest, suppliedFilters, List.filter_cons, hs]
    | some v =>
      obtain ⟨he, hc⟩ := h f (List.mem_cons_self f rest) v hs
      simp [he, hc, hrest, suppliedFilters, List.filter_cons, hs]

/-- A pass over a list containing a supplied out-of-enum filter always
raises some exception. -/
theorem processFilters_error_of_invalid (env : Env) (req : GetRangeRequest)
    (f : FilterField) (v : String) :
    ∀ l : List FilterField, f ∈ l → pySuppliedVal (fieldOf req f) = some v →
      inEnum f v = false → ((processFilters env req l).2).isSome = true := by
  intro l
  induction l with
  | nil => intro h; exact absurd h (List.not_mem_nil f)
  | cons g rest ih =>
    intro hmem hs he
    rw [processFilters]
    cases hgs : pySuppliedVal (fieldOf req g) with
    | none =>
      have hne : f ≠ g := fun h => by rw [h, hgs] at hs; exact Option.noConfusion hs
      exact ih ((List.mem_cons.mp hmem).resolve_left hne) hs he
    | some w =>
      by_cases hge : inEnum g w = true
      · have hne : f ≠ g := by
          intro hfg
          subst hfg
          rw [hgs] at hs
          cases hs
          rw [he] at hge
          exact Bool.noConfusion hge
        have htail := ih ((List.mem_cons.mp hmem).resolve_left hne) hs he
        by_cases hc : env.clickSucceeds g = true
        · simpa [hge, hc] using htail
        · by_cases hr : raisesOnClickFail g w = true
          · simp [hge, hc, hr]
          · simpa [hge, hc, hr] using htail
      · simp [hge]

/-- When a pass raises nothing, it attempted exactly the supplied filters. -/
theorem processFilters_trace_of_none (env : Env) (req : GetRangeRequest) :
    ∀ l : List FilterField, (processFilters env req l).2 = none →
      (processFilters env req l).1 = suppliedFilters req l := by
  intro l
  induction l with
  | nil => intro _; simp [processFilters, suppliedFilters]
  | cons f rest ih =>
    intro h
    rw [processFilters] at h ⊢
    cases hs : pySuppliedVal (fieldOf req f) with
    | none =>
      rw [hs] at h
      simp [suppliedFilters, List.filter_cons, hs, ih h]
    | some v =>
      rw [hs] at h
      by_cases he : inEnum f v
      · by_cases hc : env.clickSucceeds f
        · simp [he, hc] at h
          simp [he, hc, suppliedFilters, List.filter_cons, hs, ih h]
        · by_cases hr : raisesOnClickFail f v
          · simp [he, hc, hr] at h
          · simp [he, hc, hr] at h
            simp [he, hc, hr, suppliedFilters, List.filter_cons, hs, ih h]
      · simp [he] at h

/-- The pass depends on the environment only through the per-filter click
outcomes, never through the panel-open outcome. -/
theorem processFilters_env_congr (env1 env2 : Env) (req : GetRangeRequest)
    (h : env1.clickSucceeds = env2.clickSucceeds) :
    ∀ l : List FilterField, processFilters env1 req l = processFilters env2 req l := by
  intro l
  induction l with
  | nil => rfl
  | cons f rest ih =>
    rw [processFilters, processFilters, ih, h]

/-- The sequential token construction after the loop equals one token per
supplied filter mapped over the declared filter order. -/
theorem actionsPerformed_eq_tokensSpec (req : GetRangeRequest) :
    actionsPerformed req = tokensSpec req := by
  simp [actionsPerformed, tokensSpec, joinMap, filterOrder, contribToken, fieldOf]

/-- A successful `get-range` call returns exactly the response built from
the request. -/
theorem eq_mkResponse_of_ok (reg : Reg) (env : Env) (req : GetRangeRequest)
    (r : GetRangeResponse) (h : get_range_action reg env req = .ok r) :
    r = mkResponse req := by
  unfold get_range_action at h
  split at h
  · exact absurd h (by simp)
  · split at h
    · exact absurd h (by simp)
    · split at h
      · exact absurd h (by simp)
      · split at h
        · exact absurd h (by simp)
        · exact (Except.ok.inj h).symm

/-- Release attempts happen in list order and stop at the first failure. -/
theorem runReleases_trace_sublist :
    ∀ l : List (Resource × Option String), List.Sublist (runReleases l).1 (l.map Prod.fst) := by
  intro l
  induction l with
  | nil => exact List.Sublist.slnil
  | cons p rest ih =>
    obtain ⟨r, o⟩ := p
    cases o with
    | none => exact ih.cons₂ r
    | some e => simp [runReleases]

/-- When no release raises, every step is attempted and none aborts. -/
theorem runReleases_all_ok :
    ∀ l : List (Resource × Option String), (∀ p ∈ l, p.2 = none) →
      runReleases l = (l.map Prod.fst, none) := by
  intro l
  induction l with
  | nil => intro _; rfl
  | cons p rest ih =>
    intro h
    obtain ⟨r, o⟩ := p
    have ho : o = none := h (r, o) (List.mem_cons_self _ rest)
    subst ho
    rw [runReleases, ih (fun q hq => h q (List.mem_cons_of_mem _ hq))]
    rfl

/-- The resources of the planned release steps are the present handles. -/
theorem releaseSteps_map_fst (s : Session) (cenv : CloseEnv) :
    (releaseSteps s cenv).map Prod.fst = presentHandles s := by
  rcases s with ⟨st, u, c, hp, hc, hb, hw, e⟩
  cases hp <;> cases hc <;> cases hb <;> cases hw <;>
    simp [releaseSteps, presentHandles]

/-- The present handles always follow the declared release order. -/
theorem presentHandles_sublist (s : Session) :
    List.Sublist (presentHandles s)
      [Resource.page, Resource.context, Resource.browser, Resource.playwright] := by
  have key : ∀ a b c d : Bool, List.Sublist
      ((if a then [Resource.page] else []) ++ (if b then [Resource.context] else []) ++
       (if c then [Resource.browser] else []) ++ (if d then [Resource.playwright] else []))
      [Resource.page, Resource.context, Resource.browser, Resource.playwright] := by
    intro a b c d
    cases a <;> cases b <;> cases c <;> cases d <;> decide
  exact key s.hasPage s.hasContext s.hasBrowser s.hasPlaywright

/-- Closing never rewrites a registry entry: each key is either removed or
left exactly as it was. -/
theorem close_session_reg_pointwise (reg : Reg) (cenv : CloseEnv) (id k : String) :
    (close_session reg cenv id).2.2 k = none ∨ (close_session reg cenv id).2.2 k = reg k := by
  unfold close_session
  split
  · exact Or.inr rfl
  · split
    · exact Or.inr rfl
    · by_cases hk : k = id
      · exact Or.inl (by simp [hk])
      · exact Or.inr (by simp [hk])

/-- Closing an unknown id returns 404 and leaves the registry untouched. -/
theorem close_session_not_found (reg : Reg) (cenv : CloseEnv) (id : String)
    (h : reg id = none) :
    close_session reg cenv id = ([], .error ⟨404, "Session not found"⟩, reg) := by
  simp [close_session, h]

/-- An element of an if-guarded singleton is that singleton's element. -/
theorem mem_ite_singleton {α : Type} {b : Bool} {x p : α}
    (hp : p ∈ if b then [x] else []) : p = x := by
  cases b <;> simp_all

/-- When none of the four release calls raises, every planned release step
carries no exception. -/
theorem releaseSteps_all_none (s : Session) (cenv : CloseEnv)
    (h1 : cenv.pageFail = none) (h2 : cenv.contextFail = none)
    (h3 : cenv.browserFail = none) (h4 : cenv.playwrightFail = none) :
    ∀ p ∈ releaseSteps s cenv, p.2 = none := by
  intro p hp
  rw [releaseSteps] at hp
  rcases List.mem_append.mp hp with hp2 | hp2
  · rcases List.mem_append.mp hp2 with hp3 | hp3
    · rcases List.mem_append.mp hp3 with hp4 | hp4
      · rw [mem_ite_singleton hp4]
        exact h1
      · rw [mem_ite_singleton hp4]
        exact h2
    · rw [mem_ite_singleton hp3]
      exact h3
  · rw [mem_ite_singleton hp2]
    exact h4

/-- The attempted releases of a close always respect the declared order
page, context, browser, automation engine. -/
theorem close_trace_sublist (reg : Reg) (cenv : CloseEnv) (id : String) :
    List.Sublist (close_session reg cenv id).1
      [Resource.page, Resource.context, Resource.browser, Resource.playwright] := by
  unfold close_session
  split
  · exact List.nil_sublist _
  · rename_i s heq
    have hsteps : List.Sublist
        ((if s.status = "active" then releaseSteps s cenv else []).map Prod.fst)
        [Resource.page, Resource.context, Resource.browser, Resource.playwright] := by
      by_cases hst : s.status = "active"
      · rw [if_pos hst, releaseSteps_map_fst]
        exact presentHandles_sublist s
      · rw [if_neg hst]
        exact List.nil_sublist _
    have h := (runReleases_trace_sublist
      (if s.status = "active" then releaseSteps s cenv else [])).trans hsteps
    cases hrun : runReleases (if s.status = "active" then releaseSteps s cenv else []) with
    | mk t o =>
      rw [hrun] at h
      cases o
      · exact h
      · exact h

/-- Claim C1 counterexample: on a page where no hero selector strategy
locates a visible element, a get-range call with hero "OOP" does NOT fail:
it completes with HTTP success, because the hero block only raises inside
its "Any" branch (src/main.py lines 817-818). -/
theorem c1_counterexample :
    envNoHero.clickSucceeds FilterField.hero = false ∧
    get_range_action regOne envNoHero { session_id := "sid", hero := some "OOP" } =
      .ok { session_id := "sid", status := "success",
            message := "Successfully clicked on range selector div and OOP hero button",
            action_performed := "clicked_oop" } :=
  ⟨rfl, rfl⟩

/-- Claim C1 (amended): when every strategy of a supplied valid filter fails
and every earlier supplied filter passed, the call fails with a 500 naming
the filter and value for every filter that raises on click failure — that
is, every filter except hero with value "OOP" or "IP", whose click failure
is silently tolerated and leaves the call to succeed. -/
theorem c1_click_failure_error (env : Env) (reg : Reg) (req : GetRangeRequest)
    (s : Session) (l1 l2 : List FilterField) (f : FilterField) (v : String)
    (horder : filterOrder = l1 ++ f :: l2)
    (hpass : ∀ g ∈ l1, passes env req g)
    (hsup : pySuppliedVal (fieldOf req f) = some v)
    (henum : inEnum f v = true)
    (hclick : env.clickSucceeds f = false)
    (haction : req.action = "get-range")
    (hreg : reg req.session_id = some s)
    (hstatus : s.status = "active") :
    (raisesOnClickFail f v = true →
      get_range_action reg env req =
        .error ⟨500, "Failed to perform get-range action: " ++ clickFailMsg f v⟩) ∧
    (raisesOnClickFail f v = false → (∀ g ∈ l2, passes env req g) →
      get_range_action reg env req = .ok (mkResponse req)) := by
  have hsplit := processFilters_append_pass env req l1 (f :: l2) hpass
  constructor
  · intro hr
    have h2 : (processFilters env req filterOrder).2 = some (clickFailMsg f v) := by
      rw [horder, hsplit, processFilters]
      simp [hsup, henum, hclick, hr]
    simp [get_range_action, haction, hreg, hstatus, h2]
  · intro hr hl2
    have h2 : (processFilters env req filterOrder).2 = none := by
      rw [horder, hsplit, processFilters]
      simp [hsup, henum, hclick, hr, processFilters_all_pass env req l2 hl2]
    simp [get_range_action, haction, hreg, hstatus, h2]

/-- Witness for C1's amended theorem at a concrete input: the solutions
filter with value "Cash" on a page where its strategies all fail. -/
theorem c1_witness :
    envNoSolutions.clickSucceeds FilterField.solutions = false ∧
    get_range_action regOne envNoSolutions { session_id := "sid", solutions := some "Cash" } =
      .error ⟨500, "Failed to perform get-range action: " ++
        clickFailMsg FilterField.solutions "Cash"⟩ := by
  refine ⟨rfl, ?_⟩
  exact (c1_click_failure_error envNoSolutions regOne
    { session_id := "sid", solutions := some "Cash" } sessionActive
    [] [.cash_type, .cash_players, .available_spots, .cash_stacks, .bet_sizes, .rake,
        .cash_open_size, .cash_3bet_size, .hero]
    .solutions "Cash" rfl (fun g hg => absurd hg (List.not_mem_nil g))
    rfl rfl rfl rfl rfl rfl).1 rfl

/-- Claim C2 counterexample: with solutions "Cash" failing loudly and
cash_type "Classic" also supplied, the pass attempts only the solutions
filter — the later filter is never attempted — and the whole call
errors out. -/
theorem c2_counterexample :
    (processFilters envNoSolutions reqC2 filterOrder).1 = [FilterField.solutions] ∧
    FilterField.cash_type ∉ (processFilters envNoSolutions reqC2 filterOrder).1 ∧
    get_range_action regOne envNoSolutions reqC2 =
      .error ⟨500,
        "Failed to perform get-range action: Could not click on solutions button for Cash"⟩ :=
  ⟨rfl, by decide, rfl⟩

/-- Claim C2 (amended): the sequence is best-effort only across skipped
(absent or blank) filters.  A loud failure of an earlier filter aborts the
pass — the trace stops at the failing filter, so no later filter is
attempted; all supplied filters are attempted exactly when every one of
them passes. -/
theorem c2_loud_failure_aborts :
    (∀ (env : Env) (req : GetRangeRequest) (l1 l2 : List FilterField)
       (f : FilterField) (v : String),
      filterOrder = l1 ++ f :: l2 →
      (∀ g ∈ l1, passes env req g) →
      pySuppliedVal (fieldOf req f) = some v →
      inEnum f v = true →
      env.clickSucceeds f = false →
      raisesOnClickFail f v = true →
      processFilters env req filterOrder =
        (suppliedFilters req l1 ++ [f], some (clickFailMsg f v))) ∧
    (∀ (env : Env) (req : GetRangeRequest),
      (∀ g ∈ filterOrder, passes env req g) →
      processFilters env req filterOrder = (suppliedFilters req filterOrder, none)) := by
  constructor
  · intro env req l1 l2 f v horder hpass hsup henum hclick hr
    rw [horder, processFilters_append_pass env req l1 (f :: l2) hpass, processFilters]
    simp [hsup, henum, hclick, hr]
  · intro env req h
    exact processFilters_all_pass env req filterOrder h

/-- Witness for C2's amended theorem at a concrete input. -/
theorem c2_witness :
    processFilters envNoSolutions reqC2 filterOrder =
      (suppliedFilters reqC2 [] ++ [FilterField.solutions],
       some (clickFailMsg FilterField.solutions "Cash")) :=
  c2_loud_failure_aborts.1 envNoSolutions reqC2
    [] [.cash_type, .cash_players, .available_spots, .cash_stacks, .bet_sizes, .rake,
        .cash_open_size, .cash_3bet_size, .hero]
    .solutions "Cash" rfl (fun g hg => absurd hg (List.not_mem_nil g))
    rfl rfl rfl rfl

/-- Claim C3 counterexample: a payload whose action field is "create" and
whose session id is unregistered yields 400 (the action check runs before
the registry lookup, src/main.py lines 93-99), not 404. -/
theorem c3_counterexample :
    emptyReg "missing" = none ∧
    get_range_action emptyReg envAll reqBadAction =
      .error ⟨400, "Action must be \x27get-range\x27"⟩ ∧
    get_range_action emptyReg envAll reqBadAction ≠
      .error ⟨404, "Session not found"⟩ := by
  refine ⟨rfl, rfl, ?_⟩
  intro h
  rw [show get_range_action emptyReg envAll reqBadAction =
      Except.error ⟨400, "Action must be \x27get-range\x27"⟩ from rfl] at h
  have h400 : (400 : Nat) = 404 := congrArg Err.status_code (Except.error.inj h)
  exact absurd h400 (by decide)

/-- Claim C3 (amended): for every payload whose action field is
"get-range", an unregistered session id yields 404. -/
theorem c3_unknown_session_404 (reg : Reg) (env : Env) (req : GetRangeRequest)
    (ha : req.action = "get-range") (hk : reg req.session_id = none) :
    get_range_action reg env req = .error ⟨404, "Session not found"⟩ := by
  simp [get_range_action, ha, hk]

/-- Witness for C3's amended theorem at a concrete input. -/
theorem c3_witness :
    get_range_action emptyReg envAll { session_id := "ghost" } =
      .error ⟨404, "Session not found"⟩ :=
  c3_unknown_session_404 emptyReg envAll { session_id := "ghost" } rfl rfl

/-- Claim C4 counterexample: when releasing the page handle raises, the
close aborts after the page release (context, browser, engine are never
attempted), answers 500, and the registry entry is NOT removed — so a
second close of the same id is again 500, not 404. -/
theorem c4_counterexample :
    (close_session regOne cenvPageBoom "sid").1 = [Resource.page] ∧
    (close_session regOne cenvPageBoom "sid").2.1 =
      .error ⟨500, "Failed to close session: boom"⟩ ∧
    (close_session regOne cenvPageBoom "sid").2.2 "sid" = some sessionActive ∧
    (close_session ((close_session regOne cenvPageBoom "sid").2.2) cenvPageBoom "sid").2.1 =
      .error ⟨500, "Failed to close session: boom"⟩ ∧
    ¬ (close_session ((close_session regOne cenvPageBoom "sid").2.2) cenvPageBoom "sid").2.1 =
      .error ⟨404, "Session not found"⟩ := by
  refine ⟨rfl, rfl, rfl, rfl, ?_⟩
  intro h
  rw [show (close_session ((close_session regOne cenvPageBoom "sid").2.2)
        cenvPageBoom "sid").2.1 =
      Except.error ⟨500, "Failed to close session: boom"⟩ from rfl] at h
  have h500 : (500 : Nat) = 404 := congrArg Err.status_code (Except.error.inj h)
  exact absurd h500 (by decide)

/-- Claim C4 (amended): close of an unknown id is 404; releases follow the
order page, context, browser, engine; when every release call returns
normally the entry is removed and a second close is 404; but a failing
release aborts the remaining releases, surfaces 500 and retains the
registry entry (the releases are not tolerated independently). -/
theorem c4_close_behavior :
    (∀ (reg : Reg) (cenv : CloseEnv) (id : String), reg id = none →
      close_session reg cenv id = ([], .error ⟨404, "Session not found"⟩, reg)) ∧
    (∀ (reg : Reg) (cenv : CloseEnv) (id : String) (s : Session),
      reg id = some s → s.status = "active" →
      cenv.pageFail = none → cenv.contextFail = none →
      cenv.browserFail = none → cenv.playwrightFail = none →
      (close_session reg cenv id).1 = presentHandles s ∧
      (close_session reg cenv id).2.1 = .ok ("Session " ++ id ++ " closed successfully") ∧
      (close_session reg cenv id).2.2 id = none ∧
      ∀ cenv2, (close_session ((close_session reg cenv id).2.2) cenv2 id).2.1 =
        .error ⟨404, "Session not found"⟩) ∧
    (∀ (reg : Reg) (cenv : CloseEnv) (id : String),
      List.Sublist (close_session reg cenv id).1
        [Resource.page, Resource.context, Resource.browser, Resource.playwright]) := by
  refine ⟨close_session_not_found, ?_, close_trace_sublist⟩
  intro reg cenv id s hs hstatus h1 h2 h3 h4
  have hall := releaseSteps_all_none s cenv h1 h2 h3 h4
  have hrun := runReleases_all_ok (releaseSteps s cenv) hall
  have hclose : close_session reg cenv id =
      ((releaseSteps s cenv).map Prod.fst,
       .ok ("Session " ++ id ++ " closed successfully"),
       fun k => if k = id then none else reg k) := by
    simp [close_session, hs, hstatus, hrun]
  rw [hclose]
  refine ⟨releaseSteps_map_fst s cenv, rfl, by simp, ?_⟩
  intro cenv2
  rw [close_session_not_found _ cenv2 id (by simp)]

/-- Witness for C4's amended theorem at a concrete input. -/
theorem c4_witness :
    (close_session regOne {} "sid").1 = presentHandles sessionActive ∧
    (close_session regOne {} "sid").2.1 =
      .ok ("Session " ++ "sid" ++ " closed successfully") ∧
    (close_session regOne {} "sid").2.2 "sid" = none ∧
    (close_session ((close_session regOne {} "sid").2.2) {} "sid").2.1 =
      .error ⟨404, "Session not found"⟩ := by
  have h := c4_close_behavior.2.1 regOne {} "sid" sessionActive rfl rfl rfl rfl rfl rfl
  exact ⟨h.1, h.2.1, h.2.2.1, h.2.2.2 {}⟩

/-- Claim C5 counterexample: with solutions "Cash" failing loudly before an
out-of-enum cash_type "Nonexistent", the call does return 500, but the
message reports the solutions click failure — it does not name cash_type
nor list its allowed values. -/
theorem c5_counterexample :
    get_range_action regOne envNoSolutions reqC5 =
      .error ⟨500,
        "Failed to perform get-range action: Could not click on solutions button for Cash"⟩ ∧
    "Failed to perform get-range action: Could not click on solutions button for Cash" ≠
      "Failed to perform get-range action: " ++ invalidMsg FilterField.cash_type "Nonexistent" :=
  ⟨rfl, by decide⟩

/-- Claim C5 (amended): on an active session, a supplied out-of-enum filter
value guarantees the call never succeeds — it is a 500 — and the 500
message names that filter and lists its allowed values whenever every
earlier supplied filter passed; an earlier loud failure is reported
instead. -/
theorem c5_invalid_value_500 :
    (∀ (env : Env) (reg : Reg) (req : GetRangeRequest) (s : Session)
       (l1 l2 : List FilterField) (f : FilterField) (v : String),
      filterOrder = l1 ++ f :: l2 →
      (∀ g ∈ l1, passes env req g) →
      pySuppliedVal (fieldOf req f) = some v →
      inEnum f v = false →
      req.action = "get-range" →
      reg req.session_id = some s →
      s.status = "active" →
      get_range_action reg env req =
        .error ⟨500, "Failed to perform get-range action: " ++ invalidMsg f v⟩) ∧
    (∀ (env : Env) (reg : Reg) (req : GetRangeRequest) (s : Session)
       (f : FilterField) (v : String),
      f ∈ filterOrder →
      pySuppliedVal (fieldOf req f) = some v →
      inEnum f v = false →
      req.action = "get-range" →
      reg req.session_id = some s →
      s.status = "active" →
      ∃ e, get_range_action reg env req = .error e ∧ e.status_code = 500) := by
  constructor
  · intro env reg req s l1 l2 f v horder hpass hsup henum haction hreg hstatus
    have h2 : (processFilters env req filterOrder).2 = some (invalidMsg f v) := by
      rw [horder, processFilters_append_pass env req l1 (f :: l2) hpass, processFilters]
      simp [hsup, henum]
    simp [get_range_action, haction, hreg, hstatus, h2]
  · intro env reg req s f v hmem hsup henum haction hreg hstatus
    have h2 := processFilters_error_of_invalid env req f v filterOrder hmem hsup henum
    obtain ⟨msg, hmsg⟩ := Option.isSome_iff_exists.mp h2
    refine ⟨⟨500, "Failed to perform get-range action: " ++ msg⟩, ?_, rfl⟩
    simp [get_range_action, haction, hreg, hstatus, hmsg]

/-- Witness for C5's amended theorem at a concrete input: cash_type
"Nonexistent" with no earlier filter supplied. -/
theorem c5_witness :
    get_range_action regOne envAll { session_id := "sid", cash_type := some "Nonexistent" } =
      .error ⟨500, "Failed to perform get-range action: " ++
        invalidMsg FilterField.cash_type "Nonexistent"⟩ :=
  c5_invalid_value_500.1 envAll regOne
    { session_id := "sid", cash_type := some "Nonexistent" } sessionActive
    [.solutions]
    [.cash_players, .available_spots, .cash_stacks, .bet_sizes, .rake,
     .cash_open_size, .cash_3bet_size, .hero]
    .cash_type "Nonexistent" rfl
    (by
      intro g hg
      rw [List.mem_singleton] at hg
      subst hg
      intro v hv
      exact Option.noConfusion hv)
    rfl rfl rfl rfl rfl

/-- Claim C6: a created entry starts in status "launching"; the single
background-launch write (the task scheduled exactly once at creation,
src/main.py line 67) moves the status to "active" on success or to
"error" with the message retained on failure, never back to "launching";
no other operation rewrites a status — closing either removes the entry or
leaves it untouched. -/
theorem c6_status_transition :
    (∀ (url : String) (now : Nat), (create_session_entry url now).status = "launching") ∧
    (∀ (outcome : Except String Unit) (s : Session),
      (launch_finish outcome s).status = "active" ∨
      (launch_finish outcome s).status = "error") ∧
    (∀ (outcome : Except String Unit) (s : Session),
      (launch_finish outcome s).status ≠ "launching") ∧
    (∀ (u : Unit) (s : Session), (launch_finish (Except.ok u) s).status = "active") ∧
    (∀ (e : String) (s : Session),
      (launch_finish (Except.error e) s).status = "error" ∧
      (launch_finish (Except.error e) s).error = some e) ∧
    (∀ (reg : Reg) (id : String) (outcome : Except String Unit),
      launch_finish_reg reg id outcome id = (reg id).map (launch_finish outcome)) ∧
    (∀ (reg : Reg) (cenv : CloseEnv) (id k : String),
      (close_session reg cenv id).2.2 k = none ∨
      (close_session reg cenv id).2.2 k = reg k) := by
  refine ⟨fun url now => rfl, ?_, ?_, fun u s => rfl, fun e s => ⟨rfl, rfl⟩, ?_,
    close_session_reg_pointwise⟩
  · intro outcome s
    cases outcome with
    | error e => exact Or.inr rfl
    | ok u => exact Or.inl rfl
  · intro outcome s
    cases outcome with
    | error e => exact (by decide : ("error" : String) ≠ "launching")
    | ok u => exact (by decide : ("active" : String) ≠ "launching")
  · intro reg id outcome
    simp [launch_finish_reg]

/-- Witness for C6 at a concrete input: a failed acquisition retains the
message. -/
theorem c6_witness :
    (launch_finish (Except.error "net down")
        (create_session_entry gto_wizard_url 0)).status = "error" ∧
    (launch_finish (Except.error "net down")
        (create_session_entry gto_wizard_url 0)).error = some "net down" :=
  c6_status_transition.2.2.2.2.1 "net down" (create_session_entry gto_wizard_url 0)

/-- Claim C7: a successful get-range answers with the composite action tag
made of one normalized token per supplied filter in the declared order,
joined by "_and_"; on the scenario request with solutions "Cash" and
cash_players "6max" the tag is "clicked_cash_and_clicked_6max", containing
both tokens, and the message mentions both the "Cash solutions button" and
the "6max cash_players button". -/
theorem c7_action_tokens :
    (∀ (reg : Reg) (env : Env) (req : GetRangeRequest) (r : GetRangeResponse),
      get_range_action reg env req = .ok r →
      r.action_performed =
        (if tokensSpec req = [] then "clicked_range_selector"
         else pyJoin "_and_" (tokensSpec req)) ∧
      r.message = pyJoin " and " (messageParts req)) ∧
    get_range_action regOne envAll reqScenario = .ok respScenario ∧
    respScenario.action_performed = "clicked_cash_and_clicked_6max" ∧
    (∃ a b : String, respScenario.action_performed = a ++ "clicked_cash" ++ b) ∧
    (∃ a b : String, respScenario.action_performed = a ++ "clicked_6max" ++ b) ∧
    respScenario.message =
      "Successfully clicked on range selector div and Cash solutions button and 6max cash_players button" ∧
    (∃ a b : String, respScenario.message = a ++ "Cash solutions button" ++ b) ∧
    (∃ a b : String, respScenario.message = a ++ "6max cash_players button" ++ b) := by
  refine ⟨?_, rfl, rfl, ⟨"", "_and_clicked_6max", by decide⟩,
    ⟨"clicked_cash_and_", "", by decide⟩, rfl,
    ⟨"Successfully clicked on range selector div and ",
     " and 6max cash_players button", by decide⟩,
    ⟨"Successfully clicked on range selector div and Cash solutions button and ",
     "", by decide⟩⟩
  intro reg env req r h
  have hr := eq_mkResponse_of_ok reg env req r h
  subst hr
  constructor
  · simp [mkResponse, actionsPerformed_eq_tokensSpec]
  · rfl

/-- Witness for C7's general part at a concrete successful call. -/
theorem c7_witness :
    get_range_action regOne envAll reqScenario = .ok respScenario ∧
    respScenario.action_performed =
      (if tokensSpec reqScenario = [] then "clicked_range_selector"
       else pyJoin "_and_" (tokensSpec reqScenario)) :=
  ⟨rfl, (c7_action_tokens.1 regOne envAll reqScenario respScenario rfl).1⟩

/-- Claim C8: one get-range pass interacts with filters only along the
fixed declared order — the attempted filters always form a sublist of that
order, and a pass that raises nothing attempts exactly the supplied
filters in that order. -/
theorem c8_fixed_filter_order :
    (∀ (env : Env) (req : GetRangeRequest),
      List.Sublist (processFilters env req filterOrder).1 filterOrder) ∧
    (∀ (env : Env) (req : GetRangeRequest),
      (processFilters env req filterOrder).2 = none →
      (processFilters env req filterOrder).1 = suppliedFilters req filterOrder) ∧
    filterOrder =
      [FilterField.solutions, FilterField.cash_type, FilterField.cash_players,
       FilterField.available_spots, FilterField.cash_stacks, FilterField.bet_sizes,
       FilterField.rake, FilterField.cash_open_size, FilterField.cash_3bet_size,
       FilterField.hero] :=
  ⟨fun env req => processFilters_trace_sublist env req filterOrder,
   fun env req h => processFilters_trace_of_none env req filterOrder h, rfl⟩

/-- Witness for C8 at a concrete input. -/
theorem c8_witness :
    (processFilters envAll reqScenario filterOrder).2 = none ∧
    (processFilters envAll reqScenario filterOrder).1 =
      suppliedFilters reqScenario filterOrder :=
  ⟨rfl, c8_fixed_filter_order.2.1 envAll reqScenario rfl⟩

/-- Claim C9 counterexample: "Any" is in the hero filter's closed enum, yet
the hero value-to-identifier lookup yields no identifier for it
(hero_map maps "Any" to None, src/main.py line 737). -/
theorem c9_counterexample :
    inEnum FilterField.hero "Any" = true ∧
    identifierOf FilterField.hero "Any" = none :=
  ⟨rfl, rfl⟩

/-- Claim C9 (amended): the value-to-identifier lookup is total and yields
an identifier on every filter's enum except hero, where "OOP" and "IP"
yield identifiers but "Any" deliberately yields none; the value-to-token
normalization is deterministic and collision-free within each filter's
enum. -/
theorem c9_lookup_and_token_properties :
    (∀ f ∈ filterOrder, f ≠ FilterField.hero →
      ∀ v ∈ enumOf f, (identifierOf f v).isSome = true) ∧
    identifierOf FilterField.hero "OOP" = some "chrow_oop" ∧
    identifierOf FilterField.hero "IP" = some "chrow_ip" ∧
    identifierOf FilterField.hero "Any" = none ∧
    (∀ f ∈ filterOrder, ∀ v ∈ enumOf f, ∀ w ∈ enumOf f,
      tokenOf f v = tokenOf f w → v = w) :=
  ⟨by decide, rfl, rfl, rfl, by decide⟩

/-- Witness for C9's amended theorem at a concrete input. -/
theorem c9_witness :
    (FilterField.solutions ∈ filterOrder ∧
     FilterField.solutions ≠ FilterField.hero ∧
     "Cash" ∈ enumOf FilterField.solutions) ∧
    (identifierOf FilterField.solutions "Cash").isSome = true :=
  ⟨⟨by decide, by decide, by decide⟩,
   c9_lookup_and_token_properties.1 FilterField.solutions (by decide) (by decide)
     "Cash" (by decide)⟩

/-- Claim C10: every successful get-range response carries status
"success" and a message starting with the fixed panel prefix — regardless
of whether any panel-open strategy found an element, which never affects
the outcome — and a request supplying no filter yields the action tag
"clicked_range_selector". -/
theorem c10_success_response_shape :
    (∀ (reg : Reg) (env : Env) (req : GetRangeRequest) (r : GetRangeResponse),
      get_range_action reg env req = .ok r →
      r.status = "success" ∧
      (∃ t, r.message = "Successfully clicked on range selector div" ++ t) ∧
      ((∀ f ∈ filterOrder, pySuppliedVal (fieldOf req f) = none) →
        r.action_performed = "clicked_range_selector")) ∧
    (∀ (reg : Reg) (cs : FilterField → Bool) (b1 b2 : Bool) (req : GetRangeRequest),
      get_range_action reg ⟨cs, b1⟩ req = get_range_action reg ⟨cs, b2⟩ req) := by
  constructor
  · intro reg env req r h
    have hr := eq_mkResponse_of_ok reg env req r h
    subst hr
    refine ⟨rfl, ?_, ?_⟩
    · exact pyJoin_cons_ex " and " "Successfully clicked on range selector div"
        (messageRest req)
    · intro hnone
      have h1 : pySuppliedVal req.solutions = none := hnone .solutions (by decide)
      have h2 : pySuppliedVal req.cash_type = none := hnone .cash_type (by decide)
      have h3 : pySuppliedVal req.cash_players = none := hnone .cash_players (by decide)
      have h4 : pySuppliedVal req.available_spots = none :=
        hnone .available_spots (by decide)
      have h5 : pySuppliedVal req.cash_stacks = none := hnone .cash_stacks (by decide)
      have h6 : pySuppliedVal req.bet_sizes = none := hnone .bet_sizes (by decide)
      have h7 : pySuppliedVal req.rake = none := hnone .rake (by decide)
      have h8 : pySuppliedVal req.cash_open_size = none :=
        hnone .cash_open_size (by decide)
      have h9 : pySuppliedVal req.cash_3bet_size = none :=
        hnone .cash_3bet_size (by decide)
      have h10 : pySuppliedVal req.hero = none := hnone .hero (by decide)
      simp [mkResponse, actionsPerformed, h1, h2, h3, h4, h5, h6, h7, h8, h9, h10]
  · intro reg cs b1 b2 req
    unfold get_range_action
    rw [processFilters_env_congr ⟨cs, b1⟩ ⟨cs, b2⟩ req rfl]

/-- Witness for C10 at a concrete input: a filterless request on an active
session. -/
theorem c10_witness :
    get_range_action regOne envAll { session_id := "sid" } =
      .ok (mkResponse { session_id := "sid" }) ∧
    (mkResponse { session_id := "sid" }).status = "success" ∧
    (mkResponse { session_id := "sid" }).action_performed = "clicked_range_selector" := by
  have h := c10_success_response_shape.1 regOne envAll { session_id := "sid" }
    (mkResponse { session_id := "sid" }) rfl
  exact ⟨rfl, h.1, h.2.2 (by decide)⟩

end GTOWizard
